import Mathlib

/-!
Verification of `src/MNIST_Baseline.py` (zhiqihuang/fantastic-engine).

Shallow embedding of the training orchestrator in `MNIST_Baseline.py`.
The script compares a standard training regime (`train_standard`) with a
trajectory-reweighting regime (`train_reweight`) over `args.epochs` epochs
each, evaluating train/validation/test loss and accuracy after every epoch
(`forward_fn`), and finally attempts to save a model checkpoint.

The `trajectoryPlugin.plugin.API` object imported by the script is not part
of this repository snapshot (only its call sites are), so the API surface
(`loss_func`, `dataLoader`, `createTrajectory`, `clusterTrajectory`,
`reweightData`) is modelled from the specification; every such definition is
marked `Modelled from the spec:` in its doc comment.

Numeric values (losses, weights, accuracies) are modelled as exact rationals
(`Rat`).  The opaque tensor backend (per-example forward loss, argmax
prediction, the combined `loss.backward(); optimizer.step()` update, the GMM
clustering, and the reweighting policy) is abstracted into a `TorchCtx`
record of arbitrary functions; theorems quantify over every such context,
and concrete witness contexts instantiate it for evaluation.
-/

/-- Per-example weights and signals are exact rationals; model parameters and
optimizer state are abstract values represented by integers (the theorems
never inspect them, only thread them). -/
abbrev Params := Int

/-- Abstract optimizer state (momentum buffers etc.). -/
abbrev OptState := Int

/-- The opaque numeric backend behind the PyTorch calls in
`MNIST_Baseline.py`.  `perExampleLoss p i` is the negative-log-likelihood of
the model with parameters `p` on dataset example `i` (the value summed /
averaged by `api.loss_func`); `pred p i` is `output.argmax` for example `i`;
`target i` is the true label; `step` is the combined
`loss.backward(); optimizer.step()` update, a function of the current
(params, optimizer state), the batch's example indices and the batch's
per-example weights; `signal p i` is the per-example trajectory signal
recorded by `api.createTrajectory`; `gmm k ts` fits the mixture model of
`api.clusterTrajectory` giving each example a (cluster id, confidence)
pair; `reweight a s p` is the weight policy of `api.reweightData` with
scale `s`; `initStd` / `initRw` are the freshly constructed
(model, optimizer) states of lines 164-168. -/
structure TorchCtx where
  perExampleLoss : Params → Nat → Rat
  pred : Params → Nat → Nat
  target : Nat → Nat
  step : Params × OptState → List Nat → List Rat → Params × OptState
  signal : Params → Nat → Rat
  gmm : Int → List (List Rat) → List (Nat × Rat)
  reweight : List (Nat × Rat) → Rat → Params → List Rat
  initStd : Params × OptState
  initRw : Params × OptState

/-- The train/validation split handed to `api.dataLoader` (line 185/203):
`n` examples in the training set, the training batches and the validation
batches as lists of example indices. -/
structure DataSplit where
  n : Nat
  trainBatches : List (List Nat)
  validBatches : List (List Nat)

/-- Reduction mode of `api.loss_func` (`'mean'` or `'sum'`). -/
inductive Reduction where
  | mean
  | sum
deriving DecidableEq, Repr

/-- Arithmetic mean of a list of rationals (0 for the empty list, since
`Rat` division by zero yields 0). -/
def listMean (l : List Rat) : Rat := l.sum / l.length

/-- Dot product of two weight/loss lists. -/
def listDot (a b : List Rat) : Rat := (List.zipWith (fun x y => x * y) a b).sum

/-- State of one `trajectoryPlugin.API` object.  `weights` is the
per-example weight vector of the training set, `trajectories` the recorded
per-example signal histories, `assignment` the last clustering result,
`batches` / `validBatches` the loaders, `trainN` / `validN` the dataset
sizes used as loss denominators in `forward_fn`. -/
structure API where
  num_cluster : Int
  weights : List Rat
  trajectories : List (List Rat)
  assignment : List (Nat × Rat)
  batches : List (List Nat)
  validBatches : List (List Nat)
  trainN : Nat
  validN : Nat
deriving DecidableEq, Repr

/-- Modelled from the spec: the `API(num_cluster=..., device=..., iprint=1)`
constructor (line 184/202); `trajectoryPlugin/plugin.py` is not in `src/`.
It stores the cluster count; loaders and weights are installed by
`dataLoader`. -/
def API.new (num_cluster : Int) : API :=
  { num_cluster := num_cluster, weights := [], trajectories := [],
    assignment := [], batches := [], validBatches := [], trainN := 0, validN := 0 }

/-- Modelled from the spec: `api.dataLoader(trainset, validset, batch_size)`
(line 185/203).  Per spec section 3, the weight vector is initialized to 1.0
uniformly, one entry per training example, and trajectories start empty. -/
def API.dataLoader (api : API) (ds : DataSplit) : API :=
  { api with weights := List.replicate ds.n 1,
             trajectories := List.replicate ds.n [],
             batches := ds.trainBatches,
             validBatches := ds.validBatches,
             trainN := ds.n,
             validN := (ds.validBatches.map List.length).sum }

/-- Modelled from the spec: `api.loss_func(output, target, weight, reduction)`.
The per-example NLL values are passed as `losses`.  Per spec section 4.1 the
`'mean'` reduction is the weighted loss normalized by the in-batch weight
sum, falling back to the unweighted mean when the weight sum is zero (or no
weights are given, as in `forward_fn`); `'sum'` is the plain sum of
per-example losses. -/
def API.loss_func (losses : List Rat) (weight : Option (List Rat)) : Reduction → Rat
  | .sum => losses.sum
  | .mean =>
    match weight with
    | none => listMean losses
    | some w => if w.sum = 0 then listMean losses else listDot w losses / w.sum

/-- Appends one freshly computed signal to every example's trajectory,
walking the per-example trajectory list in index order starting at `i`. -/
def appendSignals (sig : Nat → Rat) : Nat → List (List Rat) → List (List Rat)
  | _, [] => []
  | i, t :: ts => (t ++ [sig i]) :: appendSignals sig (i + 1) ts

/-- Modelled from the spec: `api.createTrajectory(model)` (line 61).  Per
spec section 4.2 it runs the model in inference mode over the entire
training set in index order and appends one signal per example to that
example's trajectory; model parameters and weights are untouched. -/
def API.createTrajectory (ctx : TorchCtx) (p : Params) (api : API) : API :=
  { api with trajectories := appendSignals (ctx.signal p) 0 api.trajectories }

/-- Modelled from the spec: `api.clusterTrajectory()` (line 65).  Fits the
GMM with `num_cluster` components over the recorded trajectories and stores
the per-example (cluster id, confidence) assignment. -/
def API.clusterTrajectory (ctx : TorchCtx) (api : API) : API :=
  { api with assignment := ctx.gmm api.num_cluster api.trajectories }

/-- Modelled from the spec: `api.reweightData(model, 1e6)` (line 66).
Converts the current cluster assignment into a new per-example weight
vector with scale `1e6` and installs it in the data source. -/
def API.reweightData (ctx : TorchCtx) (p : Params) (scale : Rat) (api : API) : API :=
  { api with weights := ctx.reweight api.assignment scale p }

/-- Instrumentation of the observable actions of the two training loop
bodies: which epoch trained, recorded a trajectory, ran the GMM clustering
(with which `num_cluster`), or reweighted the data. -/
inductive Event where
  | trained (epoch : Int)
  | recorded (epoch : Int)
  | clustered (epoch : Int) (num_cluster : Int)
  | reweighted (epoch : Int)
deriving DecidableEq, Repr

/-- `true` on `clustered` events. -/
def Event.isCluster : Event → Bool
  | .clustered _ _ => true
  | _ => false

/-- `true` on `reweighted` events. -/
def Event.isReweight : Event → Bool
  | .reweighted _ => true
  | _ => false

/-- `true` on `trained` events. -/
def Event.isTrain : Event → Bool
  | .trained _ => true
  | _ => false

/-- Result of one epoch of a training loop: updated (model, optimizer)
state, the API object, the per-batch loss values printed by the loop, and
the instrumentation events. -/
structure EpochResult where
  state : Params × OptState
  api : API
  losses : List Rat
  events : List Event
deriving DecidableEq, Repr

/-- One iteration of the batch loop shared by `train_standard` and
`train_reweight` (lines 34-40 / 48-54): read the batch weights from the data
source, compute the weighted-mean loss via `api.loss_func(output, target,
weight, 'mean')`, then `loss.backward(); optimizer.step()`. -/
def trainBatch (ctx : TorchCtx) (api : API) (s : (Params × OptState) × List Rat)
    (batch : List Nat) : (Params × OptState) × List Rat :=
  let w := batch.map (fun i => api.weights.getD i 1)
  let losses := batch.map (ctx.perExampleLoss s.1.1)
  let loss := API.loss_func losses (some w) .mean
  (ctx.step s.1 batch w, s.2 ++ [loss])

/-- `train_standard(model, device, optimizer, epoch, api, args)`
(lines 32-44): one pass over `api.train_loader`, nothing else. -/
def train_standard (ctx : TorchCtx) (st : Params × OptState) (api : API)
    (epoch : Int) : EpochResult :=
  let r := api.batches.foldl (trainBatch ctx api) (st, [])
  { state := r.1, api := api, losses := r.2, events := [.trained epoch] }

/-- `train_reweight(model, device, optimizer, epoch, api, args)`
(lines 46-66): the same batch loop as `train_standard`, then — every epoch,
line 61 — `api.createTrajectory(model)`, then only if `epoch > args.burn_in`
(line 64) `api.clusterTrajectory()` and `api.reweightData(model, 1e6)`. -/
def train_reweight (ctx : TorchCtx) (st : Params × OptState) (api : API)
    (epoch : Int) (burn_in : Int) : EpochResult :=
  let r := api.batches.foldl (trainBatch ctx api) (st, [])
  let api1 := API.createTrajectory ctx r.1.1 api
  if epoch > burn_in then
    let api2 := API.clusterTrajectory ctx api1
    let api3 := API.reweightData ctx r.1.1 1000000 api2
    { state := r.1, api := api3, losses := r.2,
      events := [.trained epoch, .recorded epoch,
                 .clustered epoch api.num_cluster, .reweighted epoch] }
  else
    { state := r.1, api := api1, losses := r.2,
      events := [.trained epoch, .recorded epoch] }

/-- Which evaluation branch `forward_fn` runs (its `forward_type`
argument: `'test'`, `'train'` or `'validation'`). -/
inductive ForwardType where
  | test
  | train
  | validation
deriving DecidableEq, Repr

/-- Number of correct argmax predictions on one batch
(`pred.eq(target.view_as(pred)).sum().item()`). -/
def countCorrect (ctx : TorchCtx) (p : Params) (batch : List Nat) : Nat :=
  (batch.filter (fun i => ctx.pred p i = ctx.target i)).length

/-- One iteration of an evaluation loop of `forward_fn`: the mutable
program state (model parameters and the api object) is threaded through
unchanged — the loop body only reads it under `torch.no_grad()` — while the
`loss` and `correct` accumulators grow by the batch's summed NLL and its
correct-prediction count. -/
def fwdBatch (ctx : TorchCtx) (s : (Params × API) × Rat × Nat)
    (batch : List Nat) : (Params × API) × Rat × Nat :=
  let batchLoss := API.loss_func (batch.map (ctx.perExampleLoss s.1.1)) none .sum
  (s.1, (s.2.1 + batchLoss, s.2.2 + countCorrect ctx s.1.1 batch))

/-- `forward_fn(model, device, api, forward_type, test_loader)`
(lines 69-112): accumulate summed loss and correct count over the loader
selected by `forward_type`, divide by that dataset's size, and return
`(loss, accuracy)`.  The threaded `(params, api)` pair is returned so the
frame property (no mutation) is expressible. -/
def forward_fn (ctx : TorchCtx) (p : Params) (api : API) (ft : ForwardType)
    (test_loader : List (List Nat)) : (Params × API) × Rat × Rat :=
  match ft with
  | .test =>
    let r := test_loader.foldl (fwdBatch ctx) ((p, api), 0, 0)
    let n : Nat := (test_loader.map List.length).sum
    (r.1, (r.2.1 / n, 100 * (r.2.2 : Rat) / n))
  | .train =>
    let r := api.batches.foldl (fwdBatch ctx) ((p, api), 0, 0)
    (r.1, (r.2.1 / api.trainN, 100 * (r.2.2 : Rat) / api.trainN))
  | .validation =>
    let r := api.validBatches.foldl (fwdBatch ctx) ((p, api), 0, 0)
    (r.1, (r.2.1 / api.validN, 100 * (r.2.2 : Rat) / api.validN))

/-- The CLI arguments of `main` (lines 117-140), with the argparse types:
`type=int` flags are integers (argparse accepts any integer, no range
check), `type=float` flags are modelled as rationals, `--save-model` is a
boolean flag. -/
structure Args where
  batch_size : Int
  epochs : Int
  burn_in : Int
  valid_size : Int
  lr : Rat
  momentum : Rat
  noise_level : Rat
  num_cluster : Int
  seed : Int
  log_interval : Int
  save_model : Bool
deriving DecidableEq, Repr

/-- The argparse defaults of lines 117-138. -/
def defaultArgs : Args :=
  { batch_size := 64, epochs := 10, burn_in := 5, valid_size := 1000,
    lr := 1 / 100, momentum := 1 / 2, noise_level := 1 / 10,
    num_cluster := 3, seed := 1, log_interval := 10, save_model := false }

/-- Python `range(a, b)` over integers: `a, a+1, ..., b-1`, empty when
`b <= a`.  The epoch loops of lines 187 and 205 iterate
`range(1, args.epochs + 1)`. -/
def pyRange (a b : Int) : List Int :=
  (List.range (b - a).toNat).map (fun (i : Nat) => a + (i : Int))

/-- The twelve metric lists of lines 170-182, six per regime: a regime's
train/validation/test loss and accuracy histories, each appended to once
per epoch. -/
structure Metrics where
  train_loss : List Rat
  train_accuracy : List Rat
  valid_loss : List Rat
  valid_accuracy : List Rat
  test_loss : List Rat
  test_accuracy : List Rat
deriving DecidableEq, Repr

/-- Empty metric lists (lines 170-182). -/
def Metrics.empty : Metrics :=
  { train_loss := [], train_accuracy := [], valid_loss := [],
    valid_accuracy := [], test_loss := [], test_accuracy := [] }

/-- Append this epoch's six measurements, one per list (the six
`.append` pairs of lines 190-200 / 208-218). -/
def Metrics.push (m : Metrics) (trL trA vL vA teL teA : Rat) : Metrics :=
  { train_loss := m.train_loss ++ [trL],
    train_accuracy := m.train_accuracy ++ [trA],
    valid_loss := m.valid_loss ++ [vL],
    valid_accuracy := m.valid_accuracy ++ [vA],
    test_loss := m.test_loss ++ [teL],
    test_accuracy := m.test_accuracy ++ [teA] }

/-- All six metric lists have length `k`. -/
def Metrics.allLen (m : Metrics) (k : Nat) : Prop :=
  m.train_loss.length = k ∧ m.train_accuracy.length = k ∧
  m.valid_loss.length = k ∧ m.valid_accuracy.length = k ∧
  m.test_loss.length = k ∧ m.test_accuracy.length = k

/-- The per-regime mutable state of `main`: the regime's (model, optimizer)
pair, the api object, its metric lists, and the instrumentation trace. -/
structure RegimeState where
  params : Params
  opt : OptState
  api : API
  metrics : Metrics
  events : List Event
deriving DecidableEq, Repr

/-- The body of one iteration of the standard-regime epoch loop
(lines 187-200): `train_standard`, then the three `forward_fn` evaluations,
each appending one loss and one accuracy. -/
def stdEpochBody (ctx : TorchCtx) (test_loader : List (List Nat))
    (s : RegimeState) (epoch : Int) : RegimeState :=
  let r := train_standard ctx (s.params, s.opt) s.api epoch
  let f1 := forward_fn ctx r.state.1 r.api .train test_loader
  let f2 := forward_fn ctx f1.1.1 f1.1.2 .validation test_loader
  let f3 := forward_fn ctx f2.1.1 f2.1.2 .test test_loader
  { params := f3.1.1, opt := r.state.2, api := f3.1.2,
    metrics := s.metrics.push f1.2.1 f1.2.2 f2.2.1 f2.2.2 f3.2.1 f3.2.2,
    events := s.events ++ r.events }

/-- The body of one iteration of the reweight-regime epoch loop
(lines 205-218): `train_reweight`, then the same three `forward_fn`
evaluations. -/
def rwEpochBody (ctx : TorchCtx) (burn_in : Int) (test_loader : List (List Nat))
    (s : RegimeState) (epoch : Int) : RegimeState :=
  let r := train_reweight ctx (s.params, s.opt) s.api epoch burn_in
  let f1 := forward_fn ctx r.state.1 r.api .train test_loader
  let f2 := forward_fn ctx f1.1.1 f1.1.2 .validation test_loader
  let f3 := forward_fn ctx f2.1.1 f2.1.2 .test test_loader
  { params := f3.1.1, opt := r.state.2, api := f3.1.2,
    metrics := s.metrics.push f1.2.1 f1.2.2 f2.2.1 f2.2.2 f3.2.1 f3.2.2,
    events := s.events ++ r.events }

/-- The api object built for a regime (lines 184-185 and again 202-203):
`API(num_cluster=args.num_cluster, ...)` followed by
`api.dataLoader(trainset, validset, batch_size=args.batch_size)`. -/
def apiOfArgs (args : Args) (ds : DataSplit) : API :=
  (API.new args.num_cluster).dataLoader ds

/-- `NameError` raised by the Python interpreter on an undefined name. -/
inductive PyError where
  | nameError (name : String)
deriving DecidableEq, Repr

/-- The local variable names bound in `main` by the time line 220 runs
(lines 140-218): note there is no plain `model`, only `model_standard` and
`model_reweight`. -/
def mainLocalNames : List String :=
  ["parser", "args", "device", "trainset", "test_loader", "datalen",
   "validset", "model_standard", "optimizer_standard", "model_reweight",
   "optimizer_reweight",
   "standard_train_loss", "standard_train_accuracy", "standard_valid_loss",
   "standard_valid_accuracy", "standard_test_loss", "standard_test_accuracy",
   "reweight_train_loss", "reweight_train_accuracy", "reweight_valid_loss",
   "reweight_valid_accuracy", "reweight_test_loss", "reweight_test_accuracy",
   "api", "epoch", "loss", "accuracy"]

/-- Lines 220-221: `if (args.save_model): torch.save(model.state_dict(), ...)`.
The name `model` must be resolved before `torch.save` can run; resolution
against `main`'s locals fails when it is absent, raising `NameError`.
Returns whether a checkpoint file was written. -/
def saveModelStep (save_model : Bool) : Except PyError Bool :=
  if save_model then
    if "model" ∈ mainLocalNames then Except.ok true
    else Except.error (.nameError "model")
  else Except.ok false

/-- The steps of `main`'s setup section in source order (lines 142-185),
instrumented: optional seeding (lines 142-143), dataset load (147),
train/validation split (162), the two model constructions (164, 167), api
construction (184). -/
inductive SetupStep where
  | seeded (seed : Int)
  | loadedData
  | splitData
  | builtModelStandard
  | builtModelReweight
  | builtApi
deriving DecidableEq, Repr

/-- The setup steps after the seeding decision (lines 147-185). -/
def setupTail : List SetupStep :=
  [.loadedData, .splitData, .builtModelStandard, .builtModelReweight, .builtApi]

/-- Lines 142-185 of `main`: `torch.manual_seed(args.seed)` is called iff
`args.seed != 0`, and before the dataset split and model constructions. -/
def mainSetup (args : Args) : List SetupStep :=
  (if args.seed ≠ 0 then [SetupStep.seeded args.seed] else []) ++ setupTail

/-- Everything `main` produces after argument parsing: the standard
regime's final state, the api object constructed at lines 202-203 for the
reweight regime, the reweight regime's final state, and the outcome of the
save-model step. -/
structure MainResult where
  stdFinal : RegimeState
  rwInitApi : API
  rwFinal : RegimeState
  save : Except PyError Bool
deriving Repr

/-- `main` after argument parsing (lines 142-221): build the api
(lines 184-185), run the standard epoch loop (187-200), build a fresh api
(202-203), run the reweight epoch loop (205-218), then the save-model step
(220-221). -/
def mainRun (ctx : TorchCtx) (args : Args) (ds : DataSplit)
    (test_loader : List (List Nat)) : MainResult :=
  let api1 := apiOfArgs args ds
  let stdInit : RegimeState :=
    { params := ctx.initStd.1, opt := ctx.initStd.2, api := api1,
      metrics := Metrics.empty, events := [] }
  let stdFinal := (pyRange 1 (args.epochs + 1)).foldl
    (stdEpochBody ctx test_loader) stdInit
  let api2 := apiOfArgs args ds
  let rwInit : RegimeState :=
    { params := ctx.initRw.1, opt := ctx.initRw.2, api := api2,
      metrics := Metrics.empty, events := [] }
  let rwFinal := (pyRange 1 (args.epochs + 1)).foldl
    (rwEpochBody ctx args.burn_in test_loader) rwInit
  { stdFinal := stdFinal, rwInitApi := api2, rwFinal := rwFinal,
    save := saveModelStep args.save_model }

/-- A small concrete backend: two training examples in one batch, losses
and signals depending on the (abstract) parameter value, an update that
increments the parameter, a clustering that assigns everything to cluster 0
with confidence 1, and a reweighting that multiplies confidence by the
scale.  Used to evaluate the embedding at concrete inputs. -/
def demoCtx : TorchCtx :=
  { perExampleLoss := fun p i => (p : Rat) + i,
    pred := fun _ i => i % 10,
    target := fun i => i % 10,
    step := fun st _ _ => (st.1 + 1, st.2),
    signal := fun p i => (p : Rat) + i,
    gmm := fun _ ts => ts.map (fun _ => (0, 1)),
    reweight := fun a s _ => a.map (fun c => c.2 * s),
    initStd := (0, 0),
    initRw := (0, 0) }

/-- A concrete split: two training examples in one batch, one validation
example. -/
def demoSplit : DataSplit :=
  { n := 2, trainBatches := [[0, 1]], validBatches := [[0]] }

/-- A concrete test loader with a single one-example batch. -/
def demoTest : List (List Nat) := [[0]]

/-- Spec-side reference for the refinement claim (spec section 8): one
batch of the standard regime as the spec describes the uniform-weight case —
the loss is the plain unweighted mean of the per-example losses, and the
update sees unit weights. -/
def trainBatchUnweightedSpec (ctx : TorchCtx) (s : (Params × OptState) × List Rat)
    (batch : List Nat) : (Params × OptState) × List Rat :=
  let losses := batch.map (ctx.perExampleLoss s.1.1)
  let loss := API.loss_func losses none .mean
  (ctx.step s.1 batch (List.replicate batch.length 1), s.2 ++ [loss])

/-- Spec-side reference epoch: the unweighted training pass over the
batches. -/
def trainEpochUnweightedSpec (ctx : TorchCtx) (st : Params × OptState)
    (batches : List (List Nat)) : (Params × OptState) × List Rat :=
  batches.foldl (trainBatchUnweightedSpec ctx) (st, [])

/-- A benign event: neither a clustering nor a reweighting action. -/
def Event.benign (e : Event) : Bool := !(e.isCluster || e.isReweight)

/- Helper lemmas -/

/-- The evaluation loop body of `forward_fn` never touches the threaded
(parameters, api) state. -/
lemma fwdBatch_fst (ctx : TorchCtx) (s : (Params × API) × Rat × Nat)
    (batch : List Nat) : (fwdBatch ctx s batch).1 = s.1 := rfl

/-- Folding the evaluation loop over any loader preserves the threaded
(parameters, api) state. -/
lemma foldl_fwdBatch_fst (ctx : TorchCtx) (l : List (List Nat)) :
    ∀ s : (Params × API) × Rat × Nat, (l.foldl (fwdBatch ctx) s).1 = s.1 := by
  induction l with
  | nil => intro s; rfl
  | cons b bs ih => intro s; rw [List.foldl_cons, ih, fwdBatch_fst]

/-- `forward_fn` returns the model parameters and the api object it was
given, for every branch. -/
lemma forward_fn_state (ctx : TorchCtx) (p : Params) (api : API)
    (ft : ForwardType) (tl : List (List Nat)) :
    (forward_fn ctx p api ft tl).1 = (p, api) := by
  cases ft <;> simp [forward_fn, foldl_fwdBatch_fst]

/-- The sum of `n` unit weights is `n`. -/
lemma sum_replicate_one (n : Nat) : (List.replicate n (1 : Rat)).sum = n := by
  induction n with
  | zero => simp
  | succ m ih => simp [List.replicate_succ, ih]; ring

/-- Dotting a loss list with unit weights gives its plain sum. -/
lemma listDot_replicate_one (l : List Rat) :
    listDot (List.replicate l.length 1) l = l.sum := by
  induction l with
  | nil => rfl
  | cons x xs ih => simp [listDot, List.replicate_succ] at ih ⊢; simp [ih]

/-- The spec's round-trip property of `loss_func`: with all batch weights
equal to 1.0 the weighted-mean reduction equals the unweighted mean. -/
lemma loss_func_replicate_one (l : List Rat) :
    API.loss_func l (some (List.replicate l.length 1)) .mean =
      API.loss_func l none .mean := by
  cases l with
  | nil => simp [API.loss_func, listMean, listDot]
  | cons x xs =>
    have hsum := sum_replicate_one (x :: xs).length
    have hdot := listDot_replicate_one (x :: xs)
    have hne : ((x :: xs).length : Rat) ≠ 0 :=
      Nat.cast_ne_zero.mpr (by simp)
    simp only [API.loss_func, hsum, hdot, listMean]
    rw [if_neg hne]

/-- Reading any index of a uniform weight vector with default 1 gives 1. -/
lemma getD_replicate_one (n i : Nat) :
    (List.replicate n (1 : Rat)).getD i 1 = 1 := by
  by_cases h : i < n
  · rw [List.getD_eq_getElem _ _ (by simpa using h)]
    simp
  · rw [List.getD_eq_default _ _ (by simpa using Nat.le_of_not_lt h)]

/-- Any batch's weight lookup over a vector whose every lookup is 1 yields
unit weights. -/
lemma map_getD_uniform (w : List Rat) (h : ∀ i, w.getD i 1 = 1)
    (b : List Nat) : b.map (fun i => w.getD i 1) = List.replicate b.length 1 := by
  induction b with
  | nil => rfl
  | cons x xs ih =>
    have hx := h x
    simp only [List.getD, List.get?_eq_getElem?] at hx
    simp only [List.getD, List.get?_eq_getElem?] at ih
    simp [List.replicate_succ, List.getD, hx, ih]

/-- With a uniform weight vector, one batch of the implementation's loop
body coincides with the spec-side unweighted reference. -/
lemma trainBatch_uniform (ctx : TorchCtx) (api : API)
    (h : ∀ i, api.weights.getD i 1 = 1) (s : (Params × OptState) × List Rat)
    (batch : List Nat) :
    trainBatch ctx api s batch = trainBatchUnweightedSpec ctx s batch := by
  have hw : batch.map (fun i => api.weights.getD i 1) =
      List.replicate batch.length 1 := map_getD_uniform api.weights h batch
  have hred := loss_func_replicate_one (batch.map (ctx.perExampleLoss s.1.1))
  simp only [trainBatch, trainBatchUnweightedSpec, hw]
  rw [show batch.length = (batch.map (ctx.perExampleLoss s.1.1)).length by simp]
  rw [hred]

/-- Folding two pointwise-equal step functions gives equal results. -/
lemma foldl_fun_congr {α β : Type} (f g : α → β → α)
    (h : ∀ a b, f a b = g a b) : ∀ (l : List β) (a : α), l.foldl f a = l.foldl g a := by
  intro l
  induction l with
  | nil => intro a; rfl
  | cons x xs ih => intro a; rw [List.foldl_cons, List.foldl_cons, h, ih]

/-- Appending one signal per trajectory increments every trajectory's
length by exactly one, whatever the starting index. -/
lemma appendSignals_map_length (sig : Nat → Rat) :
    ∀ (i : Nat) (l : List (List Rat)),
      (appendSignals sig i l).map List.length = l.map (fun t => t.length + 1) := by
  intro i l
  induction l generalizing i with
  | nil => rfl
  | cons t ts ih => simp [appendSignals, ih]

/-- The reweight loop body always hands `train_standard`'s batch loop result
back unchanged: same final (model, optimizer) state and same per-batch
losses, whatever the epoch. -/
lemma train_reweight_state_losses (ctx : TorchCtx) (st : Params × OptState)
    (api : API) (epoch burn_in : Int) :
    (train_reweight ctx st api epoch burn_in).state =
      (train_standard ctx st api epoch).state ∧
    (train_reweight ctx st api epoch burn_in).losses =
      (train_standard ctx st api epoch).losses := by
  by_cases h : epoch > burn_in <;>
    simp [train_reweight, train_standard, h]

/-- The trajectories after one reweight epoch: every example's trajectory
grew by exactly one entry (recording happens unconditionally at line 61). -/
lemma train_reweight_traj_length (ctx : TorchCtx) (st : Params × OptState)
    (api : API) (epoch burn_in : Int) :
    (train_reweight ctx st api epoch burn_in).api.trajectories.map List.length =
      api.trajectories.map (fun t => t.length + 1) := by
  by_cases h : epoch > burn_in <;>
    simp [train_reweight, h, API.reweightData, API.clusterTrajectory,
      API.createTrajectory, appendSignals_map_length]

/-- In the warm-up branch (`epoch <= burn_in`) the reweight loop body
leaves the weight vector untouched. -/
lemma train_reweight_warmup_weights (ctx : TorchCtx) (st : Params × OptState)
    (api : API) (epoch burn_in : Int) (h : epoch ≤ burn_in) :
    (train_reweight ctx st api epoch burn_in).api.weights = api.weights := by
  simp [train_reweight, not_lt.mpr h, API.createTrajectory]

/-- In the warm-up branch the instrumentation records only training and
trajectory recording. -/
lemma train_reweight_warmup_events (ctx : TorchCtx) (st : Params × OptState)
    (api : API) (epoch burn_in : Int) (h : epoch ≤ burn_in) :
    (train_reweight ctx st api epoch burn_in).events =
      [.trained epoch, .recorded epoch] := by
  simp [train_reweight, not_lt.mpr h]

/-- Past burn-in the instrumentation records training, recording,
clustering (with the api's `num_cluster`) and reweighting, in that order. -/
lemma train_reweight_track_events (ctx : TorchCtx) (st : Params × OptState)
    (api : API) (epoch burn_in : Int) (h : epoch > burn_in) :
    (train_reweight ctx st api epoch burn_in).events =
      [.trained epoch, .recorded epoch,
       .clustered epoch api.num_cluster, .reweighted epoch] := by
  simp [train_reweight, h]

/-- One epoch of the standard regime leaves the api object untouched:
`train_standard` returns it as-is and the three `forward_fn` calls only
read it. -/
lemma stdEpochBody_api (ctx : TorchCtx) (tl : List (List Nat))
    (s : RegimeState) (e : Int) : (stdEpochBody ctx tl s e).api = s.api := by
  simp [stdEpochBody, forward_fn_state, train_standard]

/-- One epoch of the standard regime appends exactly one `trained` event. -/
lemma stdEpochBody_events (ctx : TorchCtx) (tl : List (List Nat))
    (s : RegimeState) (e : Int) :
    (stdEpochBody ctx tl s e).events = s.events ++ [.trained e] := rfl

/-- Pushing one epoch's measurements grows every metric list by one. -/
lemma Metrics.push_allLen (m : Metrics) (k : Nat) (h : m.allLen k)
    (a b c d e f : Rat) : (m.push a b c d e f).allLen (k + 1) := by
  obtain ⟨h1, h2, h3, h4, h5, h6⟩ := h
  simp [Metrics.push, Metrics.allLen, h1, h2, h3, h4, h5, h6]

/-- One epoch of the standard regime grows every metric list by one. -/
lemma stdEpochBody_allLen (ctx : TorchCtx) (tl : List (List Nat))
    (s : RegimeState) (e : Int) (k : Nat) (h : s.metrics.allLen k) :
    (stdEpochBody ctx tl s e).metrics.allLen (k + 1) :=
  Metrics.push_allLen s.metrics k h _ _ _ _ _ _

/-- One epoch of the reweight regime grows every metric list by one. -/
lemma rwEpochBody_allLen (ctx : TorchCtx) (bi : Int) (tl : List (List Nat))
    (s : RegimeState) (e : Int) (k : Nat) (h : s.metrics.allLen k) :
    (rwEpochBody ctx bi tl s e).metrics.allLen (k + 1) :=
  Metrics.push_allLen s.metrics k h _ _ _ _ _ _

/-- One epoch of the reweight regime appends the loop body's events. -/
lemma rwEpochBody_events (ctx : TorchCtx) (bi : Int) (tl : List (List Nat))
    (s : RegimeState) (e : Int) :
    (rwEpochBody ctx bi tl s e).events =
      s.events ++ (train_reweight ctx (s.params, s.opt) s.api e bi).events := rfl

/-- One epoch of the reweight regime threads `train_reweight`'s api into
the next epoch unchanged by the evaluations. -/
lemma rwEpochBody_api (ctx : TorchCtx) (bi : Int) (tl : List (List Nat))
    (s : RegimeState) (e : Int) :
    (rwEpochBody ctx bi tl s e).api =
      (train_reweight ctx (s.params, s.opt) s.api e bi).api := by
  simp [rwEpochBody, forward_fn_state]

/-- The standard epoch loop never changes the api object. -/
lemma foldl_std_api (ctx : TorchCtx) (tl : List (List Nat)) :
    ∀ (L : List Int) (s : RegimeState),
      (L.foldl (stdEpochBody ctx tl) s).api = s.api := by
  intro L
  induction L with
  | nil => intro s; rfl
  | cons e es ih => intro s; rw [List.foldl_cons, ih, stdEpochBody_api]

/-- The standard epoch loop's trace is exactly one `trained` event per
epoch, in epoch order. -/
lemma foldl_std_events (ctx : TorchCtx) (tl : List (List Nat)) :
    ∀ (L : List Int) (s : RegimeState),
      (L.foldl (stdEpochBody ctx tl) s).events = s.events ++ L.map Event.trained := by
  intro L
  induction L with
  | nil => intro s; simp
  | cons e es ih =>
    intro s
    rw [List.foldl_cons, ih, stdEpochBody_events]
    simp

/-- The standard epoch loop grows every metric list by one per epoch. -/
lemma foldl_std_allLen (ctx : TorchCtx) (tl : List (List Nat)) :
    ∀ (L : List Int) (s : RegimeState) (k : Nat), s.metrics.allLen k →
      (L.foldl (stdEpochBody ctx tl) s).metrics.allLen (k + L.length) := by
  intro L
  induction L with
  | nil => intro s k h; simpa using h
  | cons e es ih =>
    intro s k h
    rw [List.foldl_cons]
    have := ih (stdEpochBody ctx tl s e) (k + 1) (stdEpochBody_allLen ctx tl s e k h)
    simpa [Nat.add_assoc, Nat.add_comm 1 es.length] using this

/-- The reweight epoch loop grows every metric list by one per epoch. -/
lemma foldl_rw_allLen (ctx : TorchCtx) (bi : Int) (tl : List (List Nat)) :
    ∀ (L : List Int) (s : RegimeState) (k : Nat), s.metrics.allLen k →
      (L.foldl (rwEpochBody ctx bi tl) s).metrics.allLen (k + L.length) := by
  intro L
  induction L with
  | nil => intro s k h; simpa using h
  | cons e es ih =>
    intro s k h
    rw [List.foldl_cons]
    have := ih (rwEpochBody ctx bi tl s e) (k + 1) (rwEpochBody_allLen ctx bi tl s e k h)
    simpa [Nat.add_assoc, Nat.add_comm 1 es.length] using this

/-- The reweight epoch loop trains exactly once per epoch, in epoch order:
filtering its trace to `trained` events gives one per epoch. -/
lemma foldl_rw_trained (ctx : TorchCtx) (bi : Int) (tl : List (List Nat)) :
    ∀ (L : List Int) (s : RegimeState),
      ((L.foldl (rwEpochBody ctx bi tl) s).events.filter Event.isTrain) =
        s.events.filter Event.isTrain ++ L.map Event.trained := by
  intro L
  induction L with
  | nil => intro s; simp
  | cons e es ih =>
    intro s
    rw [List.foldl_cons, ih, rwEpochBody_events, List.filter_append]
    have : (train_reweight ctx (s.params, s.opt) s.api e bi).events.filter
        Event.isTrain = [.trained e] := by
      by_cases h : e > bi
      · rw [train_reweight_track_events ctx _ _ _ _ h]
        simp [List.filter, Event.isTrain]
      · rw [train_reweight_warmup_events ctx _ _ _ _ (not_lt.mp h)]
        simp [List.filter, Event.isTrain]
    simp [this]

/-- Warm-up invariant of the reweight epoch loop: while every epoch in the
list is at most `burn_in`, the weight vector is preserved and all benign-ness
of the trace is preserved (no clustering or reweighting event is added). -/
lemma foldl_rw_warmup (ctx : TorchCtx) (bi : Int) (tl : List (List Nat)) :
    ∀ (L : List Int) (s : RegimeState), (∀ e ∈ L, e ≤ bi) →
      (L.foldl (rwEpochBody ctx bi tl) s).api.weights = s.api.weights ∧
      ((L.foldl (rwEpochBody ctx bi tl) s).events.all Event.benign) =
        (s.events.all Event.benign) := by
  intro L
  induction L with
  | nil => intro s _; exact ⟨rfl, rfl⟩
  | cons e es ih =>
    intro s h
    rw [List.foldl_cons]
    have he : e ≤ bi := h e (List.mem_cons_self e es)
    have hes : ∀ x ∈ es, x ≤ bi := fun x hx => h x (List.mem_cons_of_mem e hx)
    obtain ⟨ihw, ihe⟩ := ih (rwEpochBody ctx bi tl s e) hes
    constructor
    · rw [ihw, rwEpochBody_api, train_reweight_warmup_weights ctx _ _ _ _ he]
    · rw [ihe, rwEpochBody_events, train_reweight_warmup_events ctx _ _ _ _ he]
      simp [Event.benign, Event.isCluster, Event.isReweight]

/-- Membership in a Python `range(a, b)` means `a ≤ e < b`. -/
lemma pyRange_mem (a b e : Int) (h : e ∈ pyRange a b) : a ≤ e ∧ e < b := by
  simp only [pyRange, List.mem_map, List.mem_range] at h
  obtain ⟨i, hi, rfl⟩ := h
  omega

/-- A Python `range(a, b)` has `max (b - a) 0` elements. -/
lemma pyRange_length (a b : Int) : (pyRange a b).length = (b - a).toNat := by
  simp [pyRange]

/-- The epoch loop `range(1, epochs + 1)` has `epochs` iterations (clamped
at zero for negative values, as Python's `range` is). -/
lemma pyRange_epochs_length (epochs : Int) :
    (pyRange 1 (epochs + 1)).length = epochs.toNat := by
  rw [pyRange_length]
  congr 1
  ring

/-- C4: `forward_fn`, for every forward_type (`'test'`, `'train'`,
`'validation'`) and every model/api state, leaves the model parameters and
the per-example training weights unchanged — the evaluation loops only read
forward-pass outputs under `torch.no_grad()` — and returns a
(loss, accuracy) pair. -/
theorem c4_forward_fn_frame (ctx : TorchCtx) (p : Params) (api : API)
    (ft : ForwardType) (tl : List (List Nat)) :
    (forward_fn ctx p api ft tl).1 = (p, api) ∧
    (forward_fn ctx p api ft tl).1.2.weights = api.weights := by
  refine ⟨forward_fn_state ctx p api ft tl, ?_⟩
  rw [forward_fn_state ctx p api ft tl]

/-- C2: with every per-example weight equal to 1.0 and identical seeds
(same initial (model, optimizer) state, same api state, hence same batch
order), an epoch `epoch ≤ burn_in` of the reweight regime produces exactly
the same per-batch loss values and the same parameter updates as the
standard regime's epoch; moreover both coincide with the spec-side
unweighted training pass, so the normalized loss reduces to the unweighted
mean. -/
theorem c2_uniform_refinement (ctx : TorchCtx) (st : Params × OptState)
    (api : API) (epoch burn_in : Int)
    (hw : ∀ i, api.weights.getD i 1 = 1) (_hb : epoch ≤ burn_in) :
    (train_reweight ctx st api epoch burn_in).state =
      (train_standard ctx st api epoch).state ∧
    (train_reweight ctx st api epoch burn_in).losses =
      (train_standard ctx st api epoch).losses ∧
    (train_standard ctx st api epoch).state =
      (trainEpochUnweightedSpec ctx st api.batches).1 ∧
    (train_standard ctx st api epoch).losses =
      (trainEpochUnweightedSpec ctx st api.batches).2 := by
  obtain ⟨h1, h2⟩ := train_reweight_state_losses ctx st api epoch burn_in
  have hfold : api.batches.foldl (trainBatch ctx api) (st, []) =
      trainEpochUnweightedSpec ctx st api.batches :=
    foldl_fun_congr (trainBatch ctx api) (trainBatchUnweightedSpec ctx)
      (trainBatch_uniform ctx api hw) api.batches (st, [])
  refine ⟨h1, h2, ?_, ?_⟩ <;> simp [train_standard, hfold]

/-- C2 witness: the uniform two-example api with the demo backend at epoch
1 (burn-in 5). -/
theorem c2_witness :
    (∀ i, (apiOfArgs defaultArgs demoSplit).weights.getD i 1 = 1) ∧
    (1 : Int) ≤ 5 ∧
    (train_reweight demoCtx (0, 0) (apiOfArgs defaultArgs demoSplit) 1 5).losses =
      (train_standard demoCtx (0, 0) (apiOfArgs defaultArgs demoSplit) 1).losses := by
  have hw : ∀ i, (apiOfArgs defaultArgs demoSplit).weights.getD i 1 = 1 :=
    fun i => getD_replicate_one 2 i
  exact ⟨hw, by decide,
    (c2_uniform_refinement demoCtx (0, 0) (apiOfArgs defaultArgs demoSplit) 1 5
      hw (by decide)).2.1⟩

/-- C1 counterexample: at the very first epoch (epoch 1 ≤ burn_in 5, i.e.
WARMUP) the reweight loop body has already recorded a trajectory point for
every example — `api.createTrajectory(model)` at line 61 is outside the
`if epoch > args.burn_in` guard — so the claim "during WARMUP no trajectory
recording occurs" is false on the code. -/
theorem c1_counterexample :
    (1 : Int) ≤ 5 ∧
    (train_reweight demoCtx (0, 0) (apiOfArgs defaultArgs demoSplit) 1 5).api.trajectories.map
      List.length = [1, 1] ∧
    (apiOfArgs defaultArgs demoSplit).trajectories.map List.length = [0, 0] := by
  decide

/-- C1 amended: every epoch of the reweight regime trains on the current
weights exactly as the standard loop body does, then unconditionally
records one trajectory point per example (also during WARMUP), and only if
`epoch > burn_in` clusters the trajectories and recomputes the weights; the
api carried into the next epoch is the loop body's updated api, so the next
epoch trains on the updated weights. -/
theorem c1_amended_flow (ctx : TorchCtx) (bi : Int) (tl : List (List Nat))
    (s : RegimeState) (epoch : Int) :
    (rwEpochBody ctx bi tl s epoch).api =
      (train_reweight ctx (s.params, s.opt) s.api epoch bi).api ∧
    (train_reweight ctx (s.params, s.opt) s.api epoch bi).api.trajectories.map
      List.length = s.api.trajectories.map (fun t => t.length + 1) ∧
    (train_reweight ctx (s.params, s.opt) s.api epoch bi).state =
      (train_standard ctx (s.params, s.opt) s.api epoch).state ∧
    (epoch ≤ bi →
      (train_reweight ctx (s.params, s.opt) s.api epoch bi).api.weights =
        s.api.weights ∧
      (train_reweight ctx (s.params, s.opt) s.api epoch bi).events.all
        Event.benign = true) ∧
    (epoch > bi →
      Event.clustered epoch s.api.num_cluster ∈
        (train_reweight ctx (s.params, s.opt) s.api epoch bi).events ∧
      Event.reweighted epoch ∈
        (train_reweight ctx (s.params, s.opt) s.api epoch bi).events) := by
  refine ⟨rwEpochBody_api ctx bi tl s epoch,
    train_reweight_traj_length ctx _ _ _ _,
    (train_reweight_state_losses ctx _ _ _ _).1, ?_, ?_⟩
  · intro h
    refine ⟨train_reweight_warmup_weights ctx _ _ _ _ h, ?_⟩
    rw [train_reweight_warmup_events ctx _ _ _ _ h]
    simp [List.all_cons, Event.benign, Event.isCluster, Event.isReweight]
  · intro h
    rw [train_reweight_track_events ctx _ _ _ _ h]
    exact ⟨by simp, by simp⟩

/-- C1 amended witness: the demo backend at a warm-up epoch (1 ≤ 5) and a
tracking epoch (6 > 5). -/
theorem c1_amended_witness :
    ((train_reweight demoCtx (0, 0) (apiOfArgs defaultArgs demoSplit) 1 5).api.weights =
      (apiOfArgs defaultArgs demoSplit).weights ∧
     (train_reweight demoCtx (0, 0) (apiOfArgs defaultArgs demoSplit) 1 5).events.all
      Event.benign = true) ∧
    (Event.clustered 6 (apiOfArgs defaultArgs demoSplit).num_cluster ∈
      (train_reweight demoCtx (0, 0) (apiOfArgs defaultArgs demoSplit) 6 5).events ∧
     Event.reweighted 6 ∈
      (train_reweight demoCtx (0, 0) (apiOfArgs defaultArgs demoSplit) 6 5).events) := by
  constructor
  · exact (c1_amended_flow demoCtx 5 demoTest
      { params := 0, opt := 0, api := apiOfArgs defaultArgs demoSplit,
        metrics := Metrics.empty, events := [] } 1).2.2.2.1 (by decide)
  · exact (c1_amended_flow demoCtx 5 demoTest
      { params := 0, opt := 0, api := apiOfArgs defaultArgs demoSplit,
        metrics := Metrics.empty, events := [] } 6).2.2.2.2 (by decide)

/-- C3: for every run of the reweight regime whose epoch count stays within
the burn-in (`args.epochs ≤ args.burn_in`, i.e. every epoch satisfies
`epoch ≤ burn_in`), no clustering and no reweighting action ever executes
and the weight vector is still the uniform initial `1.0` vector after the
run. -/
theorem c3_warmup_invariant (ctx : TorchCtx) (args : Args) (ds : DataSplit)
    (tl : List (List Nat)) (h : args.epochs ≤ args.burn_in) :
    (mainRun ctx args ds tl).rwFinal.api.weights = List.replicate ds.n 1 ∧
    (mainRun ctx args ds tl).rwFinal.events.all Event.benign = true := by
  have hall : ∀ e ∈ pyRange 1 (args.epochs + 1), e ≤ args.burn_in := by
    intro e he
    have := pyRange_mem 1 (args.epochs + 1) e he
    omega
  obtain ⟨hw, he⟩ := foldl_rw_warmup ctx args.burn_in tl
    (pyRange 1 (args.epochs + 1))
    { params := ctx.initRw.1, opt := ctx.initRw.2, api := apiOfArgs args ds,
      metrics := Metrics.empty, events := [] } hall
  constructor
  · calc (mainRun ctx args ds tl).rwFinal.api.weights
        = (apiOfArgs args ds).weights := hw
      _ = List.replicate ds.n 1 := rfl
  · exact he

/-- C3 witness: two epochs, burn-in five, demo backend — weights stay
`[1, 1]`. -/
theorem c3_witness :
    ({ defaultArgs with epochs := 2 } : Args).epochs ≤
      ({ defaultArgs with epochs := 2 } : Args).burn_in ∧
    (mainRun demoCtx { defaultArgs with epochs := 2 } demoSplit
      demoTest).rwFinal.api.weights = List.replicate demoSplit.n 1 :=
  ⟨by decide,
    (c3_warmup_invariant demoCtx { defaultArgs with epochs := 2 } demoSplit
      demoTest (by decide)).1⟩

/-- C5 counterexample: `main` never validates `--num_cluster`; with
`num_cluster = 1`, `epochs = 2`, `burn_in = 1` the run reaches epoch 2 and
invokes the clustering pass with `num_cluster = 1 < 2`. -/
theorem c5_counterexample :
    Event.clustered 2 1 ∈
      (mainRun demoCtx { defaultArgs with num_cluster := 1, epochs := 2, burn_in := 1 }
        demoSplit demoTest).rwFinal.events ∧
    ¬ ((2 : Int) ≤ 1) := by
  constructor
  · decide
  · decide

/-- C5 amended: the `num_cluster` consumed by the core is exactly the CLI
value, forwarded to the api (and from there to the clustering call)
without any validation; the argparse default is 3, which satisfies the
spec's `≥ 2`, but nothing enforces the bound for user-supplied values. -/
theorem c5_amended_passthrough (args : Args) (ds : DataSplit) :
    (apiOfArgs args ds).num_cluster = args.num_cluster ∧
    defaultArgs.num_cluster = 3 ∧
    (∀ ctx : TorchCtx, ∀ api : API,
      (API.clusterTrajectory ctx api).assignment =
        ctx.gmm api.num_cluster api.trajectories) :=
  ⟨rfl, rfl, fun _ _ => rfl⟩

/-- C6: every run terminates after the configured epoch count — for
`args.epochs ≥ 0` each regime's epoch loop body runs exactly once per epoch
`1, …, args.epochs` in order (the standard trace is exactly that list of
`trained` events; the reweight trace filtered to training events likewise),
and each of the twelve metric lists receives exactly one entry per epoch. -/
theorem c6_epoch_counts (ctx : TorchCtx) (args : Args) (ds : DataSplit)
    (tl : List (List Nat)) (_h : 0 ≤ args.epochs) :
    (mainRun ctx args ds tl).stdFinal.metrics.allLen args.epochs.toNat ∧
    (mainRun ctx args ds tl).rwFinal.metrics.allLen args.epochs.toNat ∧
    (mainRun ctx args ds tl).stdFinal.events =
      (pyRange 1 (args.epochs + 1)).map Event.trained ∧
    (mainRun ctx args ds tl).rwFinal.events.filter Event.isTrain =
      (pyRange 1 (args.epochs + 1)).map Event.trained := by
  have hlen := pyRange_epochs_length args.epochs
  have h0 : Metrics.empty.allLen 0 := by
    simp [Metrics.empty, Metrics.allLen]
  refine ⟨?_, ?_, ?_, ?_⟩
  · have := foldl_std_allLen ctx tl (pyRange 1 (args.epochs + 1))
      { params := ctx.initStd.1, opt := ctx.initStd.2, api := apiOfArgs args ds,
        metrics := Metrics.empty, events := [] } 0 h0
    rwa [hlen, Nat.zero_add] at this
  · have := foldl_rw_allLen ctx args.burn_in tl (pyRange 1 (args.epochs + 1))
      { params := ctx.initRw.1, opt := ctx.initRw.2, api := apiOfArgs args ds,
        metrics := Metrics.empty, events := [] } 0 h0
    rwa [hlen, Nat.zero_add] at this
  · have := foldl_std_events ctx tl (pyRange 1 (args.epochs + 1))
      { params := ctx.initStd.1, opt := ctx.initStd.2, api := apiOfArgs args ds,
        metrics := Metrics.empty, events := [] }
    simpa using this
  · have := foldl_rw_trained ctx args.burn_in tl (pyRange 1 (args.epochs + 1))
      { params := ctx.initRw.1, opt := ctx.initRw.2, api := apiOfArgs args ds,
        metrics := Metrics.empty, events := [] }
    simpa using this

/-- C6 witness: the two-epoch demo run has two entries in each metric list
and trains at epochs 1 and 2 in order, in both regimes. -/
theorem c6_witness :
    (0 : Int) ≤ 2 ∧
    ((mainRun demoCtx { defaultArgs with epochs := 2 } demoSplit demoTest).stdFinal.metrics.allLen
      (2 : Int).toNat ∧
     (mainRun demoCtx { defaultArgs with epochs := 2 } demoSplit demoTest).rwFinal.metrics.allLen
      (2 : Int).toNat ∧
     (mainRun demoCtx { defaultArgs with epochs := 2 } demoSplit demoTest).stdFinal.events =
      (pyRange 1 ((2 : Int) + 1)).map Event.trained ∧
     (mainRun demoCtx { defaultArgs with epochs := 2 } demoSplit demoTest).rwFinal.events.filter
      Event.isTrain = (pyRange 1 ((2 : Int) + 1)).map Event.trained) :=
  ⟨by decide,
    c6_epoch_counts demoCtx { defaultArgs with epochs := 2 } demoSplit demoTest (by decide)⟩

/-- C7: the standard regime trains with uniform weights for the whole run —
its trace contains only `trained` events (no recording, no clustering, no
reweighting), the api object is bit-for-bit the one built at lines 184-185,
its weight vector is still the uniform initial vector, every weight lookup
a batch can make yields 1.0, and no trajectory was recorded. -/
theorem c7_standard_frame (ctx : TorchCtx) (args : Args) (ds : DataSplit)
    (tl : List (List Nat)) :
    (mainRun ctx args ds tl).stdFinal.api = apiOfArgs args ds ∧
    (mainRun ctx args ds tl).stdFinal.api.weights = List.replicate ds.n 1 ∧
    (∀ i, (mainRun ctx args ds tl).stdFinal.api.weights.getD i 1 = 1) ∧
    (mainRun ctx args ds tl).stdFinal.api.trajectories = List.replicate ds.n [] ∧
    (mainRun ctx args ds tl).stdFinal.events.all Event.isTrain = true := by
  have hapi : (mainRun ctx args ds tl).stdFinal.api = apiOfArgs args ds :=
    foldl_std_api ctx tl (pyRange 1 (args.epochs + 1))
      { params := ctx.initStd.1, opt := ctx.initStd.2, api := apiOfArgs args ds,
        metrics := Metrics.empty, events := [] }
  have hev : (mainRun ctx args ds tl).stdFinal.events =
      (pyRange 1 (args.epochs + 1)).map Event.trained := by
    have := foldl_std_events ctx tl (pyRange 1 (args.epochs + 1))
      { params := ctx.initStd.1, opt := ctx.initStd.2, api := apiOfArgs args ds,
        metrics := Metrics.empty, events := [] }
    simpa using this
  refine ⟨hapi, ?_, ?_, ?_, ?_⟩
  · rw [hapi]; rfl
  · intro i
    rw [hapi]
    exact getD_replicate_one ds.n i
  · rw [hapi]; rfl
  · rw [hev]
    simp [List.all_map, Event.isTrain]

/-- C8: for every run invoked with `--save-model`, `main` reaches line 221
after both training loops and fails there with a `NameError`, because the
`torch.save` call references the undefined name `model` (only
`model_standard` and `model_reweight` are bound); consequently no model
checkpoint is ever written. -/
theorem c8_save_model_name_error (ctx : TorchCtx) (args : Args) (ds : DataSplit)
    (tl : List (List Nat)) (h : args.save_model = true) :
    (mainRun ctx args ds tl).save = Except.error (PyError.nameError "model") ∧
    ∀ b : Bool, (mainRun ctx args ds tl).save ≠ Except.ok b := by
  have hs : (mainRun ctx args ds tl).save = saveModelStep args.save_model := rfl
  have he : saveModelStep true = Except.error (PyError.nameError "model") := by
    simp [saveModelStep, mainLocalNames]
  rw [hs, h, he]
  exact ⟨rfl, fun b hb => Except.noConfusion hb⟩

/-- C8 witness: the demo run with the save flag set ends in the
`NameError`. -/
theorem c8_witness :
    ({ defaultArgs with save_model := true } : Args).save_model = true ∧
    (mainRun demoCtx { defaultArgs with save_model := true } demoSplit demoTest).save =
      Except.error (PyError.nameError "model") :=
  ⟨rfl, (c8_save_model_name_error demoCtx { defaultArgs with save_model := true }
    demoSplit demoTest rfl).1⟩

/-- C9: `torch.manual_seed(args.seed)` is executed iff `args.seed ≠ 0`
(lines 142-143), and when executed it is the very first setup step —
before the dataset load, the train/validation split and both model
constructions; with `seed = 0` no seeding step occurs at all. -/
theorem c9_seed_gate (args : Args) :
    ((∃ s, SetupStep.seeded s ∈ mainSetup args) ↔ args.seed ≠ 0) ∧
    (args.seed ≠ 0 → mainSetup args = SetupStep.seeded args.seed :: setupTail) ∧
    (args.seed = 0 → mainSetup args = setupTail) := by
  by_cases h : args.seed = 0
  · have hm : mainSetup args = setupTail := by simp [mainSetup, h]
    refine ⟨?_, fun hne => absurd h hne, fun _ => hm⟩
    rw [hm]
    constructor
    · rintro ⟨s, hs⟩
      simp [setupTail] at hs
    · intro hne
      exact absurd h hne
  · have hm : mainSetup args = SetupStep.seeded args.seed :: setupTail := by
      simp [mainSetup, h]
    refine ⟨?_, fun _ => hm, fun h0 => absurd h0 h⟩
    rw [hm]
    constructor
    · intro _
      exact h
    · intro _
      exact ⟨args.seed, by simp⟩

/-- C9 witness: the default arguments (seed 1) are seeded first; setting
seed 0 skips seeding. -/
theorem c9_witness :
    (defaultArgs.seed ≠ 0 ∧
      mainSetup defaultArgs = SetupStep.seeded 1 :: setupTail) ∧
    (({ defaultArgs with seed := 0 } : Args).seed = 0 ∧
      mainSetup { defaultArgs with seed := 0 } = setupTail) :=
  ⟨⟨by decide, (c9_seed_gate defaultArgs).2.1 (by decide)⟩,
   ⟨rfl, (c9_seed_gate { defaultArgs with seed := 0 }).2.2 rfl⟩⟩

/-- C10: the reweight regime starts from the api object freshly
constructed at lines 202-203, after the standard regime finished: it is
identical whatever the training backend did during the standard run (and
whatever test loader was used), and it carries uniform weights, empty
trajectories and no cluster assignment. -/
theorem c10_fresh_reweight_api (ctx ctx' : TorchCtx) (args : Args)
    (ds : DataSplit) (tl tl' : List (List Nat)) :
    (mainRun ctx args ds tl).rwInitApi = (mainRun ctx' args ds tl').rwInitApi ∧
    (mainRun ctx args ds tl).rwInitApi = apiOfArgs args ds ∧
    (mainRun ctx args ds tl).rwInitApi.weights = List.replicate ds.n 1 ∧
    (mainRun ctx args ds tl).rwInitApi.trajectories = List.replicate ds.n [] ∧
    (mainRun ctx args ds tl).rwInitApi.assignment = [] :=
  ⟨rfl, rfl, rfl, rfl, rfl⟩
